import Mathlib

/-!
# Verification of `VerticalOptionOrder`

A shallow embedding of `src/objects/broker/robinhood/VerticalOptionOrder.js`:
the constructor (Pending path with `_validate`, Executed path copying the
server whitelist), `submit`, the static `getOrders`, and every accessor.

JavaScript dynamic values are modelled by the inductive `JSVal`; JS numbers
are modelled as `Rat` together with an explicit `nan` constructor (so that
`typeof x === "number"` holds for both).  Asynchronous operations are
modelled by passing the normalized transport outcome (what the external
`Robinhood.handleResponse` collaborator would deliver) as an explicit
argument, and recording how many network requests were issued.
-/

namespace AlgoTrader

/-- A JavaScript runtime value, as far as this module inspects them.
Array-valued fields (the server's `legs`) are only ever copied verbatim,
never traversed, so no array constructor is needed: any `JSVal` can stand
for them opaquely. -/
inductive JSVal where
  | undef
  | null
  | nan
  | num (q : Rat)
  | str (s : String)
  | bool (b : Bool)
deriving DecidableEq, Repr

/-- `typeof v === "string"` -/
def JSVal.isStringType : JSVal → Bool
  | .str _ => true
  | _ => false

/-- `typeof v === "number"` (`NaN` is of type number in JS). -/
def JSVal.isNumberType : JSVal → Bool
  | .num _ => true
  | .nan => true
  | _ => false

/-- The JS `Number(v)` coercion, restricted to the value shapes this module
produces.  Strings are parsed as optionally-signed decimal literals (the
subset relevant to price/quantity fields); a non-numeric string gives `nan`,
the empty string gives `0`, exactly as in JS. -/
def parseDecimalDigits : List Char → Option Nat
  | [] => none
  | cs =>
    cs.foldl (fun acc c =>
      match acc with
      | none => none
      | some n => if c.isDigit then some (n * 10 + (c.toNat - 48)) else none)
      (some 0)

/-- Parse `digits` or `digits.digits` as a rational. -/
def parseDecimal (s : String) : Option Rat :=
  match s.split (· = '.') with
  | [w] => (parseDecimalDigits w.toList).map (fun n => (n : Rat))
  | [w, f] =>
    match parseDecimalDigits w.toList, parseDecimalDigits f.toList with
    | some n, some m => some ((n : Rat) + (m : Rat) / ((10 : Rat) ^ f.length))
    | _, _ => none
  | _ => none

/-- Parse an optionally signed decimal string, `Number(string)` style. -/
def parseNumber (s : String) : Option Rat :=
  let t := s.trim
  if t = "" then some 0
  else if t.startsWith "-" then (parseDecimal (t.drop 1)).map (fun q => -q)
  else if t.startsWith "+" then parseDecimal (t.drop 1)
  else parseDecimal t

/-- `Number(v)`. -/
def numberCoerce : JSVal → JSVal
  | .num q => .num q
  | .nan => .nan
  | .undef => .nan
  | .null => .num 0
  | .bool b => .num (if b then 1 else 0)
  | .str s =>
    match parseNumber s with
    | some q => .num q
    | none => .nan

/-- An authenticated-session collaborator (the `User` object).
`isAuthenticated = some b` models `user.isAuthenticated` being a function
returning `b`; `none` models its absence (so `typeof ... === "function"`
fails). -/
structure User where
  isAuthenticated : Option Bool
  accountNumber : String
  authToken : String
deriving DecidableEq, Repr

/-- The instrument-reference collaborator: an `OptionInstrument` exposes a
resolvable instrument URL. -/
structure OptionInstrument where
  instrumentURL : String
deriving DecidableEq, Repr

/-- A value sitting in the `longLeg`/`shortLeg` slot: either an actual
`OptionInstrument` instance (so `instanceof` succeeds) or any other value. -/
inductive LegRef where
  | inst (i : OptionInstrument)
  | notInst (v : JSVal)
deriving DecidableEq, Repr

/-- `x instanceof OptionInstrument` -/
def LegRef.isInstrument : LegRef → Bool
  | .inst _ => true
  | .notInst _ => false

/-- `.instrumentURL` (only read after the `instanceof` check has passed). -/
def LegRef.instrumentURL : LegRef → String
  | .inst i => i.instrumentURL
  | .notInst _ => ""

/-- The single `object` argument of the constructor.  It carries both the
new-order parameter slots (`side`, `type`, `price`, `timeInForce`,
`longLeg`, `shortLeg`, `quantity`, `ref_id`) and the server-record slots
(the Executed-path whitelist); any field the caller did not supply is
`JSVal.undef`. -/
structure JSObject where
  side : JSVal := .undef
  type : JSVal := .undef
  price : JSVal := .undef
  timeInForce : JSVal := .undef
  longLeg : LegRef := .notInst .undef
  shortLeg : LegRef := .notInst .undef
  quantity : JSVal := .undef
  ref_id : JSVal := .undef
  opening_strategy : JSVal := .undef
  updated_at : JSVal := .undef
  time_in_force : JSVal := .undef
  response_category : JSVal := .undef
  chain_symbol : JSVal := .undef
  id : JSVal := .undef
  chain_id : JSVal := .undef
  state : JSVal := .undef
  trigger : JSVal := .undef
  legs : JSVal := .undef
  direction : JSVal := .undef
  premium : JSVal := .undef
  pending_quantity : JSVal := .undef
  processed_quantity : JSVal := .undef
  closing_strategy : JSVal := .undef
  processed_premium : JSVal := .undef
  created_at : JSVal := .undef
  cancel_url : JSVal := .undef
  canceled_quantity : JSVal := .undef
deriving DecidableEq, Repr

/-- One element of the request payload's `legs` array. -/
structure Leg where
  position_effect : String
  side : String
  ratio_quantity : Nat
  option : String
deriving DecidableEq, Repr

/-- The built request payload (`this.form`). -/
structure OrderForm where
  account : String
  direction : String
  legs : List Leg
  price : JSVal
  time_in_force : JSVal
  trigger : String
  type : JSVal
  quantity : JSVal
  override_day_trade_checks : Bool
  override_dtbp_checks : Bool
  ref_id : JSVal
deriving DecidableEq, Repr

/-- Modelled from the spec: the provider base URL supplied by the
`Robinhood` base class (`this.url`); the base class itself is not under
`src/`, but `getOrders` hard-codes the same URL. -/
def robinhoodURL : String := "https://api.robinhood.com"

/-- A `VerticalOptionOrder` instance: the fields the constructor assigns.
On the Pending path only `user`, `executed := false` and `form` are set; on
the Executed path `form` stays absent and the whitelist fields are copied
from the input object (a field never assigned is `JSVal.undef`, exactly as
an unassigned JS instance property reads `undefined`). -/
structure Order where
  user : User
  executed : Bool
  form : Option OrderForm := none
  opening_strategy : JSVal := .undef
  updated_at : JSVal := .undef
  ref_id : JSVal := .undef
  time_in_force : JSVal := .undef
  response_category : JSVal := .undef
  chain_symbol : JSVal := .undef
  id : JSVal := .undef
  chain_id : JSVal := .undef
  state : JSVal := .undef
  trigger : JSVal := .undef
  legs : JSVal := .undef
  type : JSVal := .undef
  direction : JSVal := .undef
  premium : JSVal := .undef
  price : JSVal := .undef
  pending_quantity : JSVal := .undef
  processed_quantity : JSVal := .undef
  closing_strategy : JSVal := .undef
  processed_premium : JSVal := .undef
  created_at : JSVal := .undef
  cancel_url : JSVal := .undef
  canceled_quantity : JSVal := .undef
  quantity : JSVal := .undef
deriving DecidableEq, Repr

/-- `s.toLowerCase()`, computed character by character. -/
def toLowerJS (s : String) : String := ⟨s.data.map Char.toLower⟩

/-- `["gfd", "gtc", "ioc", "opg"].indexOf(timeInForce.toLowerCase()) !== -1`
(a non-string has no `toLowerCase`, so the whole assertion condition can
only hold for a string). -/
def timeInForceAllowed : JSVal → Bool
  | .str s =>
    toLowerJS s = "gfd" ∨ toLowerJS s = "gtc" ∨
    toLowerJS s = "ioc" ∨ toLowerJS s = "opg"
  | _ => false

/-! Each `assert(cond, new Error(msg))` of `_validate()` becomes one named
boolean condition and one named message, in source order. -/

def authCheck (user : User) : Bool :=
  user.isAuthenticated = some true

def msgUserAuth : String :=
  "Parameter \x27user\x27 must be an instance of the User class and authenticated with Robinhood"

def sideStringCheck (object : JSObject) : Bool := object.side.isStringType

def msgSideString : String := "Object property \x27side\x27 must be a string"

def sideValueCheck (object : JSObject) : Bool :=
  object.side = .str "buy" ∨ object.side = .str "sell"

def msgSideValue : String :=
  "Object property \x27side\x27 must be either \x27buy\x27 or \x27sell\x27"

def typeStringCheck (object : JSObject) : Bool := object.type.isStringType

def msgTypeString : String := "Object property \x27type\x27 must be a string"

def typeValueCheck (object : JSObject) : Bool :=
  object.type = .str "market" ∨ object.type = .str "limit"

def msgTypeValue : String :=
  "Object property \x27type\x27 must be either \x27market\x27 or \x27limit\x27"

def notBuyMarketCheck (object : JSObject) : Bool :=
  ¬ (object.side = .str "buy" ∧ object.type = .str "market")

def msgBuyMarket : String :=
  "Robinhood does not allow buy orders to be of type \x27market\x27"

def priceCheck (object : JSObject) : Bool := object.price.isNumberType

def msgPrice : String := "Object property \x27price\x27 must be a number"

def tifStringCheck (object : JSObject) : Bool := object.timeInForce.isStringType

def msgTifString : String := "Object property \x27timeInForce\x27 must be a string"

def tifValueCheck (object : JSObject) : Bool :=
  timeInForceAllowed object.timeInForce

def msgTifValue : String :=
  "Object property \x27timeInForce\x27 must be either GFD, GTC, IOC, or OPG"

def longLegCheck (object : JSObject) : Bool := object.longLeg.isInstrument

def shortLegCheck (object : JSObject) : Bool := object.shortLeg.isInstrument

/-- The message of both leg assertions (the source repeats the same text,
naming neither `longLeg` nor `shortLeg`). -/
def msgLegInstrument : String :=
  "Object property \x27optionInstrument\x27 must be an instance of the OptionInstrument class"

def quantityCheck (object : JSObject) : Bool := object.quantity.isNumberType

def msgQuantity : String := "Object property \x27quantity\x27 must be a number"

/-- The `_validate()` helper: the fail-fast assertion sequence, in source
order; the first failing assertion's `Error` message is thrown. -/
def validateOrder (user : User) (object : JSObject) : Except String Unit :=
  if authCheck user = false then .error msgUserAuth
  else if sideStringCheck object = false then .error msgSideString
  else if sideValueCheck object = false then .error msgSideValue
  else if typeStringCheck object = false then .error msgTypeString
  else if typeValueCheck object = false then .error msgTypeValue
  else if notBuyMarketCheck object = false then .error msgBuyMarket
  else if priceCheck object = false then .error msgPrice
  else if tifStringCheck object = false then .error msgTifString
  else if tifValueCheck object = false then .error msgTifValue
  else if longLegCheck object = false then .error msgLegInstrument
  else if shortLegCheck object = false then .error msgLegInstrument
  else if quantityCheck object = false then .error msgQuantity
  else .ok ()

/-- The `this.form` assignment of the Pending path.  `freshId` stands for
the value `uuidv4()` would return at this construction (the external
random-identifier source). -/
def buildForm (user : User) (object : JSObject) (freshId : String) : OrderForm :=
  { account := robinhoodURL ++ "/accounts/" ++ user.accountNumber ++ "/"
    direction := if object.side = .str "buy" then "debit" else "credit"
    legs :=
      [ { position_effect := if object.side = .str "buy" then "close" else "open"
          side := "buy"
          ratio_quantity := 1
          option := object.longLeg.instrumentURL }
      , { position_effect := if object.side = .str "buy" then "close" else "open"
          side := "sell"
          ratio_quantity := 1
          option := object.shortLeg.instrumentURL } ]
    price := object.price
    time_in_force := object.timeInForce
    trigger := "immediate"
    type := object.type
    quantity := object.quantity
    override_day_trade_checks := false
    override_dtbp_checks := false
    ref_id := if object.ref_id ≠ .undef then object.ref_id else .str freshId }

/-- The Executed branch of the constructor: sets `executed := true` and
copies the fixed whitelist of fields verbatim from the input object. -/
def executedFrom (user : User) (object : JSObject) : Order :=
  { user := user
    executed := true
    opening_strategy := object.opening_strategy
    updated_at := object.updated_at
    ref_id := object.ref_id
    time_in_force := object.time_in_force
    response_category := object.response_category
    chain_symbol := object.chain_symbol
    id := object.id
    chain_id := object.chain_id
    state := object.state
    trigger := object.trigger
    legs := object.legs
    type := object.type
    direction := object.direction
    premium := object.premium
    price := object.price
    pending_quantity := object.pending_quantity
    processed_quantity := object.processed_quantity
    closing_strategy := object.closing_strategy
    processed_premium := object.processed_premium
    created_at := object.created_at
    cancel_url := object.cancel_url
    canceled_quantity := object.canceled_quantity
    quantity := object.quantity }

/-- The constructor.  Branches on
`object.state === undefined && object.cancel_url === undefined`; the
Pending branch runs `_validate()` (a thrown assertion is an `Except.error`)
and builds the form; the Executed branch copies the whitelist. -/
def construct (user : User) (object : JSObject) (freshId : String) :
    Except String Order :=
  if object.state = .undef ∧ object.cancel_url = .undef then
    match validateOrder user object with
    | .error e => .error e
    | .ok _ =>
      .ok { user := user, executed := false
            form := some (buildForm user object freshId) }
  else
    .ok (executedFrom user object)

/-- The result of running `submit()` against a given normalized transport
outcome: how many network requests were issued, the state of the receiver
(`this`) afterwards, and the settled promise (rejection value or resolved
order). -/
structure SubmitResult where
  networkCalls : Nat
  finalThis : Order
  outcome : Except String Order
deriving Repr

/-- `submit()`.  `net` is the outcome the external
`Robinhood.handleResponse` collaborator delivers for the one POST this
method can issue (`Except.ok res` calls the success continuation with the
parsed body `res`); `freshId` feeds any `uuidv4()` drawn inside the nested
constructor call.  If the order is already executed the promise is rejected
immediately with the literal message and no request is posted; otherwise
one request is posted and, on success, `this.executed` is assigned `true`
and a new order is constructed from the response. -/
def submit (this : Order) (net : Except String JSObject) (freshId : String) :
    SubmitResult :=
  if this.executed then
    { networkCalls := 0
      finalThis := this
      outcome := .error "This order has already been executed!" }
  else
    match net with
    | .error e =>
      { networkCalls := 1, finalThis := this, outcome := .error e }
    | .ok res =>
      { networkCalls := 1
        finalThis := { this with executed := true }
        outcome := construct this.user res freshId }

/-- The ascending comparison `lodash` uses on the sort keys this module
produces (the `created_at` property): strings compare lexicographically and
`undefined` sorts after every defined value; across distinct value shapes a
fixed rank ordering is used. -/
def jsRank : JSVal → Nat
  | .num _ => 0
  | .nan => 1
  | .str _ => 2
  | .bool _ => 3
  | .null => 4
  | .undef => 5

/-- Lexicographic comparison of character lists (the code-unit comparison
JS applies to strings). -/
def charListLe : List Char → List Char → Bool
  | [], _ => true
  | _ :: _, [] => false
  | a :: as, b :: bs =>
    if a < b then true else if b < a then false else charListLe as bs

/-- Ascending sort-key comparison (total preorder on `JSVal`). -/
def jsKeyLe (a b : JSVal) : Bool :=
  match a, b with
  | .num x, .num y => x ≤ y
  | .str x, .str y => charListLe x.data y.data
  | .bool x, .bool y => !x || y
  | _, _ => jsRank a ≤ jsRank b

/-- The ordering `_.sortBy(array, "created_at")` sorts by. -/
def createdAtLe (a b : Order) : Prop :=
  jsKeyLe a.created_at b.created_at = true

instance : DecidableRel createdAtLe := fun a b => by
  unfold createdAtLe; infer_instance

/-- `static getOrders(user)`.  `net` is the normalized outcome of the one
GET against the listing endpoint; on success the response entries carrying
a `state` field are wrapped as executed orders and the result is sorted
ascending by `created_at` (a stable ascending sort, as `_.sortBy`). -/
def getOrders (user : User) (net : Except String (List JSObject)) :
    Except String (List Order) :=
  match net with
  | .error e => .error e
  | .ok res =>
    .ok (List.insertionSort createdAtLe
      ((res.filter (fun o => o.state ≠ .undef)).map (executedFrom user)))

/-- `new Date(created_at)`: a date value wrapping the raw timestamp field
(the module never inspects the parsed date itself). -/
structure JSDate where
  raw : JSVal
deriving DecidableEq, Repr

def Order.getLegs (o : Order) : JSVal := o.legs

def Order.getDirection (o : Order) : JSVal := o.direction

def Order.getPremium (o : Order) : JSVal := o.premium

def Order.getProcessedPremium (o : Order) : JSVal := o.processed_premium

def Order.getTimeInForce (o : Order) : JSVal := o.time_in_force

def Order.getReferenceID (o : Order) : JSVal := o.ref_id

def Order.getPrice (o : Order) : JSVal := numberCoerce o.price

def Order.getTrigger (o : Order) : JSVal := o.trigger

def Order.getType (o : Order) : JSVal := o.type

def Order.getQuantity (o : Order) : JSVal := numberCoerce o.quantity

def Order.getQuantityPending (o : Order) : JSVal := numberCoerce o.pending_quantity

def Order.getQuantityCanceled (o : Order) : JSVal := numberCoerce o.canceled_quantity

def Order.getChainID (o : Order) : JSVal := o.chain_id

def Order.getSymbol (o : Order) : JSVal := o.chain_symbol

def Order.getDateCreated (o : Order) : JSDate := ⟨o.created_at⟩

def Order.isExecuted (o : Order) : Bool := o.executed

def Order.isCredit (o : Order) : Bool := o.direction = .str "credit"

def Order.isDebit (o : Order) : Bool := o.direction = .str "debit"

/-! ## Concrete fixtures -/

def sampleUser : User :=
  { isAuthenticated := some true, accountNumber := "ACC123", authToken := "tok" }

def sampleLong : LegRef := .inst ⟨"https://api.robinhood.com/options/instruments/L1/"⟩

def sampleShort : LegRef := .inst ⟨"https://api.robinhood.com/options/instruments/S1/"⟩

/-- A parameter set passing every validation check, `side = sell`. -/
def validSellParams : JSObject :=
  { side := .str "sell", type := .str "limit", price := .num 1
    timeInForce := .str "gtc", longLeg := sampleLong, shortLeg := sampleShort
    quantity := .num 2 }

/-- The same parameter set with `side = buy` (still valid: type is limit). -/
def validBuyParams : JSObject := { validSellParams with side := .str "buy" }

/-- A server-response record (carries a `state` field). -/
def sampleServerRecord : JSObject :=
  { state := .str "filled", id := .str "oid-1", direction := .str "credit"
    price := .str "1.50", quantity := .str "3", time_in_force := .str "gtc"
    ref_id := .str "abc", created_at := .str "2019-01-01T00:00:00Z"
    legs := .str "legs-blob", chain_symbol := .str "SPY"
    cancel_url := .null }

/-- The Pending order `new VerticalOptionOrder(sampleUser, validSellParams)`
builds when `uuidv4()` returns `"fresh-1"`. -/
def pendingSellOrder : Order :=
  { user := sampleUser, executed := false
    form := some (buildForm sampleUser validSellParams "fresh-1") }

/-- The Pending order built from `validBuyParams`. -/
def pendingBuyOrder : Order :=
  { user := sampleUser, executed := false
    form := some (buildForm sampleUser validBuyParams "fresh-1") }

/-! ## Helper lemmas -/

/-- The spec's validation table, §4.1, written as one order-independent
conjunction: `side` ∈ {buy, sell}; `orderType` ∈ {market, limit}; not
(side=buy ∧ orderType=market); `price` numeric; `timeInForce`
case-insensitively in {gfd, gtc, ioc, opg}; both legs are instrument
references; `quantity` numeric; the session reports itself authenticated. -/
def specValidParams (user : User) (object : JSObject) : Prop :=
  user.isAuthenticated = some true ∧
  (object.side = .str "buy" ∨ object.side = .str "sell") ∧
  (object.type = .str "market" ∨ object.type = .str "limit") ∧
  ¬ (object.side = .str "buy" ∧ object.type = .str "market") ∧
  object.price.isNumberType = true ∧
  timeInForceAllowed object.timeInForce = true ∧
  object.longLeg.isInstrument = true ∧
  object.shortLeg.isInstrument = true ∧
  object.quantity.isNumberType = true

instance (user : User) (object : JSObject) : Decidable (specValidParams user object) := by
  unfold specValidParams; infer_instance

/-- The distinct assertion messages of `_validate()`, in source order. -/
def validationMessages : List String :=
  [ msgUserAuth, msgSideString, msgSideValue, msgTypeString, msgTypeValue
  , msgBuyMarket, msgPrice, msgTifString, msgTifValue, msgLegInstrument
  , msgQuantity ]

theorem sideStringCheck_of_value (object : JSObject)
    (h : sideValueCheck object = true) : sideStringCheck object = true := by
  unfold sideValueCheck at h
  rcases of_decide_eq_true h with h | h <;>
    simp [sideStringCheck, h, JSVal.isStringType]

theorem typeStringCheck_of_value (object : JSObject)
    (h : typeValueCheck object = true) : typeStringCheck object = true := by
  unfold typeValueCheck at h
  rcases of_decide_eq_true h with h | h <;>
    simp [typeStringCheck, h, JSVal.isStringType]

theorem tifStringCheck_of_value (object : JSObject)
    (h : tifValueCheck object = true) : tifStringCheck object = true := by
  unfold tifValueCheck timeInForceAllowed at h
  cases hv : object.timeInForce <;> rw [hv] at h <;>
    simp_all [tifStringCheck, JSVal.isStringType]

/-- `_validate()` succeeds exactly when every assertion condition holds. -/
theorem validateOrder_ok_iff_checks (user : User) (object : JSObject) :
    validateOrder user object = .ok () ↔
      (authCheck user && sideStringCheck object && sideValueCheck object &&
       typeStringCheck object && typeValueCheck object &&
       notBuyMarketCheck object && priceCheck object &&
       tifStringCheck object && tifValueCheck object &&
       longLegCheck object && shortLegCheck object &&
       quantityCheck object) = true := by
  unfold validateOrder
  cases authCheck user <;> simp
  all_goals try (cases sideStringCheck object <;> simp)
  all_goals try (cases sideValueCheck object <;> simp)
  all_goals try (cases typeStringCheck object <;> simp)
  all_goals try (cases typeValueCheck object <;> simp)
  all_goals try (cases notBuyMarketCheck object <;> simp)
  all_goals try (cases priceCheck object <;> simp)
  all_goals try (cases tifStringCheck object <;> simp)
  all_goals try (cases tifValueCheck object <;> simp)
  all_goals try (cases longLegCheck object <;> simp)
  all_goals try (cases shortLegCheck object <;> simp)

theorem validateOrder_ok_iff (user : User) (object : JSObject) :
    validateOrder user object = .ok () ↔ specValidParams user object := by
  rw [validateOrder_ok_iff_checks]
  unfold specValidParams authCheck sideValueCheck typeValueCheck
    notBuyMarketCheck priceCheck tifValueCheck longLegCheck shortLegCheck
    quantityCheck
  simp only [Bool.and_eq_true, decide_eq_true_eq, and_assoc]
  constructor
  · rintro ⟨ha, _, hside, _, htype, hmk, hprice, _, htif, hlong, hshort, hqty⟩
    exact ⟨ha, hside, htype, hmk, hprice, htif, hlong, hshort, hqty⟩
  · rintro ⟨ha, hside, htype, hmk, hprice, htif, hlong, hshort, hqty⟩
    refine ⟨ha, ?_, hside, ?_, htype, hmk, hprice, ?_, htif, hlong, hshort, hqty⟩
    · exact sideStringCheck_of_value object (by simp [sideValueCheck, hside])
    · exact typeStringCheck_of_value object (by simp [typeValueCheck, htype])
    · exact tifStringCheck_of_value object (by simp [tifValueCheck, htif])

/-- `_validate()` either succeeds or throws one of the listed messages. -/
theorem validateOrder_cases (user : User) (object : JSObject) :
    validateOrder user object = .ok () ∨
    ∃ msg, validateOrder user object = .error msg ∧ msg ∈ validationMessages := by
  unfold validateOrder
  cases authCheck user <;> simp [validationMessages]
  all_goals try (cases sideStringCheck object <;> simp [validationMessages])
  all_goals try (cases sideValueCheck object <;> simp [validationMessages])
  all_goals try (cases typeStringCheck object <;> simp [validationMessages])
  all_goals try (cases typeValueCheck object <;> simp [validationMessages])
  all_goals try (cases notBuyMarketCheck object <;> simp [validationMessages])
  all_goals try (cases priceCheck object <;> simp [validationMessages])
  all_goals try (cases tifStringCheck object <;> simp [validationMessages])
  all_goals try (cases tifValueCheck object <;> simp [validationMessages])
  all_goals try (cases longLegCheck object <;> simp [validationMessages])
  all_goals try (cases shortLegCheck object <;> simp [validationMessages])
  all_goals try (cases quantityCheck object <;> simp [validationMessages])

theorem validateOrder_error_mem (user : User) (object : JSObject) (msg : String)
    (h : validateOrder user object = .error msg) : msg ∈ validationMessages := by
  rcases validateOrder_cases user object with hok | ⟨m, hm, hmem⟩
  · rw [hok] at h; cases h
  · rw [hm] at h
    cases h
    exact hmem

/-- A successful construction with `executed = false` came from the Pending
branch: the input had neither `state` nor `cancel_url`, validation passed,
and the result is exactly the Pending record with the built form. -/
theorem construct_pending_inversion (u : User) (obj : JSObject) (fid : String)
    (o : Order) (h : construct u obj fid = .ok o) (hex : o.executed = false) :
    obj.state = .undef ∧ obj.cancel_url = .undef ∧
    validateOrder u obj = .ok () ∧
    o = { user := u, executed := false, form := some (buildForm u obj fid) } := by
  unfold construct at h
  split_ifs at h with hbranch
  · cases hval : validateOrder u obj with
    | error e => rw [hval] at h; cases h
    | ok v =>
      rw [hval] at h
      cases h
      exact ⟨hbranch.1, hbranch.2, rfl, rfl⟩
  · cases h
    simp [executedFrom] at hex

/-! ## Claims -/

/-- C1: for every Order with `executed = true`, `submit()` fails
immediately — the promise is rejected with the already-executed message
(the spec's `AlreadySubmittedError`) — and no network request is issued,
whatever the transport would have answered and whatever identifier
`uuidv4()` would have drawn. -/
theorem C1_submit_on_executed_rejects_without_network (o : Order)
    (net : Except String JSObject) (freshId : String)
    (h : o.executed = true) :
    submit o net freshId =
      { networkCalls := 0, finalThis := o
        outcome := .error "This order has already been executed!" } := by
  unfold submit
  rw [h]
  simp

/-- C1 witness: a concrete executed order. -/
theorem C1_witness :
    (executedFrom sampleUser sampleServerRecord).executed = true ∧
    submit (executedFrom sampleUser sampleServerRecord) (.ok sampleServerRecord) "fresh-9" =
      { networkCalls := 0, finalThis := executedFrom sampleUser sampleServerRecord
        outcome := .error "This order has already been executed!" } :=
  ⟨rfl, C1_submit_on_executed_rejects_without_network _ _ _ rfl⟩

/-- C2 counterexample: the claim "every field of the original Pending
instance (including its executed flag) is left unchanged; an Order is never
mutated after construction" is false.  For the concrete Pending order built
from `validBuyParams`, a successful `submit()` resolves to the new Executed
order but flips the original instance's `executed` flag from `false` to
`true` (source: `_this.executed = true` inside the success continuation). -/
theorem C2_counterexample_original_is_mutated :
    construct sampleUser validBuyParams "fresh-1" = .ok pendingBuyOrder ∧
    pendingBuyOrder.executed = false ∧
    (submit pendingBuyOrder (.ok sampleServerRecord) "fresh-2").outcome =
      .ok (executedFrom sampleUser sampleServerRecord) ∧
    (submit pendingBuyOrder (.ok sampleServerRecord) "fresh-2").finalThis.executed = true :=
  ⟨rfl, rfl, rfl, rfl⟩

/-- C2 (amended): on success, `submit()` resolves to a new Executed-state
Order built from the response; the original instance's fields other than
`executed` — in particular its `form` payload — are unchanged, but its
`executed` flag is set to `true` (the one mutation the code performs). -/
theorem C2_submit_success_new_order_only_executed_flag_mutated (o : Order)
    (res : JSObject) (freshId : String) (h : o.executed = false)
    (hres : res.state ≠ .undef ∨ res.cancel_url ≠ .undef) :
    submit o (.ok res) freshId =
      { networkCalls := 1
        finalThis := { o with executed := true }
        outcome := .ok (executedFrom o.user res) } ∧
    (executedFrom o.user res).executed = true := by
  have hc : construct o.user res freshId = .ok (executedFrom o.user res) := by
    unfold construct
    rw [if_neg]
    tauto
  refine ⟨?_, rfl⟩
  unfold submit
  rw [h]
  simp [hc]

/-- C2 witness: the amended statement at the concrete Pending order. -/
theorem C2_witness :
    pendingBuyOrder.executed = false ∧
    (sampleServerRecord.state ≠ JSVal.undef ∨ sampleServerRecord.cancel_url ≠ JSVal.undef) ∧
    (submit pendingBuyOrder (.ok sampleServerRecord) "fresh-2" =
      { networkCalls := 1
        finalThis := { pendingBuyOrder with executed := true }
        outcome := .ok (executedFrom pendingBuyOrder.user sampleServerRecord) } ∧
     (executedFrom pendingBuyOrder.user sampleServerRecord).executed = true) :=
  ⟨rfl, by decide,
    C2_submit_success_new_order_only_executed_flag_mutated
      pendingBuyOrder sampleServerRecord "fresh-2" rfl (by decide)⟩

/-- A parameter set with side=buy and orderType=market (other fields as in
the valid fixture). -/
def buyMarketParams : JSObject :=
  { validSellParams with side := .str "buy", type := .str "market" }

/-- C4: for every parameter set taking the Pending path with side=buy and
orderType=market, construction fails, regardless of all other fields
(including the session: if authentication fails first, construction still
fails). -/
theorem C4_buy_market_always_fails (u : User) (obj : JSObject) (fid : String)
    (hstate : obj.state = .undef) (hcancel : obj.cancel_url = .undef)
    (hside : obj.side = .str "buy") (htype : obj.type = .str "market") :
    ∃ msg, construct u obj fid = .error msg := by
  have hval : validateOrder u obj ≠ .ok () := by
    intro hok
    rw [validateOrder_ok_iff] at hok
    exact hok.2.2.2.1 ⟨hside, htype⟩
  rcases validateOrder_cases u obj with hok | ⟨m, hm, _⟩
  · exact absurd hok hval
  · refine ⟨m, ?_⟩
    unfold construct
    rw [if_pos ⟨hstate, hcancel⟩, hm]

/-- C4 witness: the concrete buy+market parameter set. -/
theorem C4_witness :
    buyMarketParams.state = JSVal.undef ∧ buyMarketParams.cancel_url = JSVal.undef ∧
    buyMarketParams.side = JSVal.str "buy" ∧ buyMarketParams.type = JSVal.str "market" ∧
    ∃ msg, construct sampleUser buyMarketParams "fid" = .error msg :=
  ⟨rfl, rfl, rfl, rfl,
    C4_buy_market_always_fails sampleUser buyMarketParams "fid" rfl rfl rfl rfl⟩

/-- Valid except that `longLeg` is not an `OptionInstrument` instance. -/
def badLongLegParams : JSObject := { validSellParams with longLeg := .notInst .undef }

/-- Valid except that `shortLeg` is not an `OptionInstrument` instance. -/
def badShortLegParams : JSObject := { validSellParams with shortLeg := .notInst .undef }

set_option maxRecDepth 20000 in
/-- C3 counterexample: two parameter sets whose only violations lie in two
*different* fields (`longLeg` vs `shortLeg`) fail with the identical error
message, and that message contains neither field name (it says
`optionInstrument`) — so the error does not name the specific offending
field, contrary to the claim. -/
theorem C3_counterexample_leg_errors_indistinguishable :
    construct sampleUser badLongLegParams "f" = .error msgLegInstrument ∧
    construct sampleUser badShortLegParams "f" = .error msgLegInstrument ∧
    ¬ ("longLeg".data <:+: msgLegInstrument.data) ∧
    ¬ ("shortLeg".data <:+: msgLegInstrument.data) :=
  ⟨rfl, rfl, by decide, by decide⟩

/-- C3 (amended): Pending-path construction is a pure function of its
inputs (no I/O); it succeeds with `executed = false` and the built form
exactly on parameter sets satisfying the validation table, and every
violating set fails with one of the assertion messages — each naming the
offending field, except the two leg checks, which share one message naming
`optionInstrument` rather than `longLeg`/`shortLeg`. -/
theorem C3_validation_characterization (u : User) (obj : JSObject) (fid : String)
    (hstate : obj.state = .undef) (hcancel : obj.cancel_url = .undef) :
    (specValidParams u obj →
      construct u obj fid =
        .ok { user := u, executed := false, form := some (buildForm u obj fid) }) ∧
    (¬ specValidParams u obj →
      ∃ msg, construct u obj fid = .error msg ∧ msg ∈ validationMessages) := by
  constructor
  · intro hv
    unfold construct
    rw [if_pos ⟨hstate, hcancel⟩, (validateOrder_ok_iff u obj).mpr hv]
  · intro hnv
    rcases validateOrder_cases u obj with hok | ⟨m, hm, hmem⟩
    · exact absurd ((validateOrder_ok_iff u obj).mp hok) hnv
    · refine ⟨m, ?_, hmem⟩
      unfold construct
      rw [if_pos ⟨hstate, hcancel⟩, hm]

/-- C3 witness: the valid sell parameter set constructs a Pending order. -/
theorem C3_witness :
    validSellParams.state = JSVal.undef ∧ validSellParams.cancel_url = JSVal.undef ∧
    specValidParams sampleUser validSellParams ∧
    construct sampleUser validSellParams "fresh-1" =
      .ok { user := sampleUser, executed := false
            form := some (buildForm sampleUser validSellParams "fresh-1") } :=
  ⟨rfl, rfl, by decide,
    (C3_validation_characterization sampleUser validSellParams "fresh-1" rfl rfl).1
      (by decide)⟩

/-- C5 counterexample: for the concrete valid sell parameters the two legs
of the built payload carry the *same* open/close posture (both `open`; with
side=buy both would be `close`), refuting "opposite open/close postures". -/
theorem C5_counterexample_legs_share_open_close :
    construct sampleUser validSellParams "fresh-1" = .ok pendingSellOrder ∧
    (buildForm sampleUser validSellParams "fresh-1").legs.map Leg.position_effect =
      ["open", "open"] ∧
    (buildForm sampleUser validBuyParams "fresh-1").legs.map Leg.position_effect =
      ["close", "close"] :=
  ⟨rfl, rfl, rfl⟩

/-- C5 (amended): in every successfully built Pending payload the two legs
share the *same* open/close posture (`close` when side=buy, `open` when
side=sell), take opposite buy/sell postures (the long leg buys, the short
leg sells, each at ratio quantity 1), and both sit under the payload's
single direction class — `debit` for a purchase, `credit` for a sale. -/
theorem C5_leg_postures (u : User) (obj : JSObject) (fid : String) (o : Order)
    (f : OrderForm) (h : construct u obj fid = .ok o) (hex : o.executed = false)
    (hform : o.form = some f) :
    f.legs =
      [ { position_effect := if obj.side = .str "buy" then "close" else "open"
          side := "buy", ratio_quantity := 1
          option := obj.longLeg.instrumentURL }
      , { position_effect := if obj.side = .str "buy" then "close" else "open"
          side := "sell", ratio_quantity := 1
          option := obj.shortLeg.instrumentURL } ] ∧
    f.direction = (if obj.side = .str "buy" then "debit" else "credit") ∧
    (obj.side = .str "buy" ∨ obj.side = .str "sell") := by
  obtain ⟨-, -, hval, ho⟩ := construct_pending_inversion u obj fid o h hex
  subst ho
  simp only [Option.some.injEq] at hform
  subst hform
  refine ⟨rfl, rfl, ?_⟩
  exact ((validateOrder_ok_iff u obj).mp hval).2.1

/-- C5 witness: the concrete sell order. -/
theorem C5_witness :
    construct sampleUser validSellParams "fresh-1" = .ok pendingSellOrder ∧
    pendingSellOrder.executed = false ∧
    pendingSellOrder.form = some (buildForm sampleUser validSellParams "fresh-1") ∧
    ((buildForm sampleUser validSellParams "fresh-1").legs =
      [ { position_effect := if validSellParams.side = .str "buy" then "close" else "open"
          side := "buy", ratio_quantity := 1
          option := validSellParams.longLeg.instrumentURL }
      , { position_effect := if validSellParams.side = .str "buy" then "close" else "open"
          side := "sell", ratio_quantity := 1
          option := validSellParams.shortLeg.instrumentURL } ] ∧
     (buildForm sampleUser validSellParams "fresh-1").direction =
       (if validSellParams.side = .str "buy" then "debit" else "credit") ∧
     (validSellParams.side = .str "buy" ∨ validSellParams.side = .str "sell")) :=
  ⟨rfl, rfl, rfl,
    C5_leg_postures sampleUser validSellParams "fresh-1" pendingSellOrder
      (buildForm sampleUser validSellParams "fresh-1") rfl rfl rfl⟩

/-- The Pending order built from `validSellParams` with a second identifier
draw. -/
def pendingSellOrder2 : Order :=
  { user := sampleUser, executed := false
    form := some (buildForm sampleUser validSellParams "fresh-2") }

/-- C6: the built payload carries exactly the caller-supplied `ref_id` when
one is given, and the fresh `uuidv4()` draw otherwise; consequently two
Pending orders built without a reference id from distinct draws carry
distinct reference identifiers. -/
theorem C6_ref_id_supplied_or_fresh (u u2 : User) (obj obj2 : JSObject)
    (fid fid2 : String) (o o2 : Order) (f f2 : OrderForm)
    (h : construct u obj fid = .ok o) (hex : o.executed = false)
    (hform : o.form = some f)
    (h2 : construct u2 obj2 fid2 = .ok o2) (hex2 : o2.executed = false)
    (hform2 : o2.form = some f2) :
    (obj.ref_id ≠ .undef → f.ref_id = obj.ref_id) ∧
    (obj.ref_id = .undef → f.ref_id = .str fid) ∧
    (obj.ref_id = .undef → obj2.ref_id = .undef → fid ≠ fid2 →
      f.ref_id ≠ f2.ref_id) := by
  obtain ⟨-, -, -, ho⟩ := construct_pending_inversion u obj fid o h hex
  obtain ⟨-, -, -, ho2⟩ := construct_pending_inversion u2 obj2 fid2 o2 h2 hex2
  subst ho
  subst ho2
  simp only [Option.some.injEq] at hform hform2
  subst hform
  subst hform2
  refine ⟨fun hne => ?_, fun he => ?_, fun he he2 hne => ?_⟩
  · simp [buildForm, hne]
  · simp [buildForm, he]
  · simp only [buildForm, he, he2, ne_eq, not_true_eq_false, if_false,
      JSVal.str.injEq]
    exact fun hc => hne hc

/-- C6 witness: the same parameters built under two identifier draws. -/
theorem C6_witness :
    construct sampleUser validSellParams "fresh-1" = .ok pendingSellOrder ∧
    pendingSellOrder.form = some (buildForm sampleUser validSellParams "fresh-1") ∧
    construct sampleUser validSellParams "fresh-2" = .ok pendingSellOrder2 ∧
    pendingSellOrder2.form = some (buildForm sampleUser validSellParams "fresh-2") ∧
    ((validSellParams.ref_id ≠ JSVal.undef →
        (buildForm sampleUser validSellParams "fresh-1").ref_id = validSellParams.ref_id) ∧
     (validSellParams.ref_id = JSVal.undef →
        (buildForm sampleUser validSellParams "fresh-1").ref_id = JSVal.str "fresh-1") ∧
     (validSellParams.ref_id = JSVal.undef → validSellParams.ref_id = JSVal.undef →
        "fresh-1" ≠ "fresh-2" →
        (buildForm sampleUser validSellParams "fresh-1").ref_id ≠
          (buildForm sampleUser validSellParams "fresh-2").ref_id)) :=
  ⟨rfl, rfl, rfl, rfl,
    C6_ref_id_supplied_or_fresh sampleUser sampleUser validSellParams validSellParams
      "fresh-1" "fresh-2" pendingSellOrder pendingSellOrder2
      (buildForm sampleUser validSellParams "fresh-1")
      (buildForm sampleUser validSellParams "fresh-2") rfl rfl rfl rfl rfl rfl⟩

/-- C7: the built direction is `debit` iff side was `buy` and `credit` iff
side was `sell`; and on every order the derived booleans agree exactly with
the direction accessor: `isDebit()`/`isCredit()` are true precisely when
`getDirection()` is the string `debit`/`credit`. -/
theorem C7_direction_side_boolean_accessors (u : User) (obj : JSObject)
    (fid : String) (o : Order) (f : OrderForm)
    (h : construct u obj fid = .ok o) (hex : o.executed = false)
    (hform : o.form = some f) (o2 : Order) :
    (f.direction = "debit" ↔ obj.side = .str "buy") ∧
    (f.direction = "credit" ↔ obj.side = .str "sell") ∧
    (o2.isDebit = true ↔ o2.getDirection = .str "debit") ∧
    (o2.isCredit = true ↔ o2.getDirection = .str "credit") := by
  obtain ⟨-, -, hval, ho⟩ := construct_pending_inversion u obj fid o h hex
  subst ho
  simp only [Option.some.injEq] at hform
  subst hform
  have hside := ((validateOrder_ok_iff u obj).mp hval).2.1
  refine ⟨?_, ?_, ?_, ?_⟩
  · constructor
    · intro hd
      by_contra hb
      simp [buildForm, if_neg hb] at hd
    · intro hb
      simp [buildForm, hb]
  · constructor
    · intro hd
      rcases hside with hb | hs
      · simp [buildForm, hb] at hd
      · exact hs
    · intro hs
      have hb : ¬ obj.side = .str "buy" := by
        rw [hs]
        simp
      simp [buildForm, if_neg hb]
  · simp [Order.isDebit, Order.getDirection]
  · simp [Order.isCredit, Order.getDirection]

/-- C7 witness: the concrete sell order and a concrete executed order. -/
theorem C7_witness :
    construct sampleUser validSellParams "fresh-1" = .ok pendingSellOrder ∧
    pendingSellOrder.executed = false ∧
    pendingSellOrder.form = some (buildForm sampleUser validSellParams "fresh-1") ∧
    (((buildForm sampleUser validSellParams "fresh-1").direction = "debit" ↔
        validSellParams.side = .str "buy") ∧
     ((buildForm sampleUser validSellParams "fresh-1").direction = "credit" ↔
        validSellParams.side = .str "sell") ∧
     ((executedFrom sampleUser sampleServerRecord).isDebit = true ↔
        (executedFrom sampleUser sampleServerRecord).getDirection = .str "debit") ∧
     ((executedFrom sampleUser sampleServerRecord).isCredit = true ↔
        (executedFrom sampleUser sampleServerRecord).getDirection = .str "credit")) :=
  ⟨rfl, rfl, rfl,
    C7_direction_side_boolean_accessors sampleUser validSellParams "fresh-1"
      pendingSellOrder (buildForm sampleUser validSellParams "fresh-1") rfl rfl rfl
      (executedFrom sampleUser sampleServerRecord)⟩

/-- An order's own field set, presented as a constructor input object: the
Executed-path whitelist fields verbatim; the parameter-only slots (`side`,
`timeInForce`, the legs) are absent, i.e. `undefined`, as they are never
assigned on an Executed instance. -/
def fieldSetOf (o : Order) : JSObject :=
  { side := .undef, timeInForce := .undef
    longLeg := .notInst .undef, shortLeg := .notInst .undef
    type := o.type, price := o.price, quantity := o.quantity, ref_id := o.ref_id
    opening_strategy := o.opening_strategy, updated_at := o.updated_at
    time_in_force := o.time_in_force, response_category := o.response_category
    chain_symbol := o.chain_symbol, id := o.id, chain_id := o.chain_id
    state := o.state, trigger := o.trigger, legs := o.legs
    direction := o.direction, premium := o.premium
    pending_quantity := o.pending_quantity, processed_quantity := o.processed_quantity
    closing_strategy := o.closing_strategy, processed_premium := o.processed_premium
    created_at := o.created_at, cancel_url := o.cancel_url
    canceled_quantity := o.canceled_quantity }

/-- C9: constructing a new Order from an Executed-path order's own field
set takes the Executed path again (the copied `state`/`cancel_url` marker
is still present) and every accessor of the round-tripped order agrees with
the original — the parse is idempotent. -/
theorem C9_roundtrip_idempotent (u : User) (obj : JSObject) (fid : String)
    (hres : obj.state ≠ .undef ∨ obj.cancel_url ≠ .undef) :
    construct u (fieldSetOf (executedFrom u obj)) fid =
      .ok (executedFrom u (fieldSetOf (executedFrom u obj))) ∧
    ((executedFrom u (fieldSetOf (executedFrom u obj))).getLegs =
        (executedFrom u obj).getLegs ∧
     (executedFrom u (fieldSetOf (executedFrom u obj))).getDirection =
        (executedFrom u obj).getDirection ∧
     (executedFrom u (fieldSetOf (executedFrom u obj))).getPremium =
        (executedFrom u obj).getPremium ∧
     (executedFrom u (fieldSetOf (executedFrom u obj))).getProcessedPremium =
        (executedFrom u obj).getProcessedPremium ∧
     (executedFrom u (fieldSetOf (executedFrom u obj))).getTimeInForce =
        (executedFrom u obj).getTimeInForce ∧
     (executedFrom u (fieldSetOf (executedFrom u obj))).getReferenceID =
        (executedFrom u obj).getReferenceID ∧
     (executedFrom u (fieldSetOf (executedFrom u obj))).getPrice =
        (executedFrom u obj).getPrice ∧
     (executedFrom u (fieldSetOf (executedFrom u obj))).getTrigger =
        (executedFrom u obj).getTrigger ∧
     (executedFrom u (fieldSetOf (executedFrom u obj))).getType =
        (executedFrom u obj).getType ∧
     (executedFrom u (fieldSetOf (executedFrom u obj))).getQuantity =
        (executedFrom u obj).getQuantity ∧
     (executedFrom u (fieldSetOf (executedFrom u obj))).getQuantityPending =
        (executedFrom u obj).getQuantityPending ∧
     (executedFrom u (fieldSetOf (executedFrom u obj))).getQuantityCanceled =
        (executedFrom u obj).getQuantityCanceled ∧
     (executedFrom u (fieldSetOf (executedFrom u obj))).getChainID =
        (executedFrom u obj).getChainID ∧
     (executedFrom u (fieldSetOf (executedFrom u obj))).getSymbol =
        (executedFrom u obj).getSymbol ∧
     (executedFrom u (fieldSetOf (executedFrom u obj))).getDateCreated =
        (executedFrom u obj).getDateCreated ∧
     (executedFrom u (fieldSetOf (executedFrom u obj))).isExecuted =
        (executedFrom u obj).isExecuted ∧
     (executedFrom u (fieldSetOf (executedFrom u obj))).isCredit =
        (executedFrom u obj).isCredit ∧
     (executedFrom u (fieldSetOf (executedFrom u obj))).isDebit =
        (executedFrom u obj).isDebit) := by
  have hc : ¬ ((fieldSetOf (executedFrom u obj)).state = JSVal.undef ∧
               (fieldSetOf (executedFrom u obj)).cancel_url = JSVal.undef) := by
    simp only [fieldSetOf, executedFrom]
    tauto
  refine ⟨?_, rfl, rfl, rfl, rfl, rfl, rfl, rfl, rfl, rfl, rfl, rfl, rfl, rfl,
    rfl, rfl, rfl, rfl, rfl⟩
  unfold construct
  rw [if_neg hc]

/-- C9 witness: the concrete server record. -/
theorem C9_witness :
    (sampleServerRecord.state ≠ JSVal.undef ∨ sampleServerRecord.cancel_url ≠ JSVal.undef) ∧
    construct sampleUser (fieldSetOf (executedFrom sampleUser sampleServerRecord)) "fid" =
      .ok (executedFrom sampleUser (fieldSetOf (executedFrom sampleUser sampleServerRecord))) ∧
    (executedFrom sampleUser (fieldSetOf (executedFrom sampleUser sampleServerRecord))).getPrice =
      (executedFrom sampleUser sampleServerRecord).getPrice :=
  ⟨by decide,
    (C9_roundtrip_idempotent sampleUser sampleServerRecord "fid" (by decide)).1,
    ((C9_roundtrip_idempotent sampleUser sampleServerRecord "fid" (by decide)).2).2.2.2.2.2.2.1⟩

/-- C10 counterexample: on the concrete Pending order, `getPrice()` returns
`Number(undefined)`, i.e. `NaN` — a numeric value that is neither
`undefined` nor any empty value — so "returns undefined/empty" is false for
the numeric-coercing accessors (the claim names `getPrice` among them). -/
theorem C10_counterexample_getPrice_nan :
    construct sampleUser validSellParams "fresh-1" = .ok pendingSellOrder ∧
    pendingSellOrder.getPrice = JSVal.nan ∧
    pendingSellOrder.getPrice ≠ JSVal.undef ∧
    pendingSellOrder.getPrice ≠ JSVal.str "" :=
  ⟨rfl, rfl, by decide, by decide⟩

/-- C10 (amended): accessors never validate state and perform no I/O (each
is a total pure function of the instance); on a Pending order the plain
accessors return `undefined`, the numeric-coercing ones return `NaN`, the
date accessor wraps `undefined`, and the direction booleans are `false` —
none fails. -/
theorem C10_pending_accessor_values (u : User) (obj : JSObject) (fid : String)
    (o : Order) (h : construct u obj fid = .ok o) (hex : o.executed = false) :
    o.getLegs = .undef ∧ o.getDirection = .undef ∧ o.getPremium = .undef ∧
    o.getProcessedPremium = .undef ∧ o.getTimeInForce = .undef ∧
    o.getReferenceID = .undef ∧ o.getPrice = .nan ∧ o.getTrigger = .undef ∧
    o.getType = .undef ∧ o.getQuantity = .nan ∧ o.getQuantityPending = .nan ∧
    o.getQuantityCanceled = .nan ∧ o.getChainID = .undef ∧ o.getSymbol = .undef ∧
    o.getDateCreated = ⟨.undef⟩ ∧ o.isCredit = false ∧ o.isDebit = false := by
  obtain ⟨-, -, -, ho⟩ := construct_pending_inversion u obj fid o h hex
  subst ho
  exact ⟨rfl, rfl, rfl, rfl, rfl, rfl, rfl, rfl, rfl, rfl, rfl, rfl, rfl, rfl,
    rfl, rfl, rfl⟩

/-- C10 witness: the concrete Pending order. -/
theorem C10_witness :
    construct sampleUser validSellParams "fresh-1" = .ok pendingSellOrder ∧
    pendingSellOrder.executed = false ∧
    (pendingSellOrder.getLegs = .undef ∧ pendingSellOrder.getDirection = .undef ∧
     pendingSellOrder.getPremium = .undef ∧ pendingSellOrder.getProcessedPremium = .undef ∧
     pendingSellOrder.getTimeInForce = .undef ∧ pendingSellOrder.getReferenceID = .undef ∧
     pendingSellOrder.getPrice = .nan ∧ pendingSellOrder.getTrigger = .undef ∧
     pendingSellOrder.getType = .undef ∧ pendingSellOrder.getQuantity = .nan ∧
     pendingSellOrder.getQuantityPending = .nan ∧ pendingSellOrder.getQuantityCanceled = .nan ∧
     pendingSellOrder.getChainID = .undef ∧ pendingSellOrder.getSymbol = .undef ∧
     pendingSellOrder.getDateCreated = ⟨.undef⟩ ∧ pendingSellOrder.isCredit = false ∧
     pendingSellOrder.isDebit = false) :=
  ⟨rfl, rfl,
    C10_pending_accessor_values sampleUser validSellParams "fresh-1"
      pendingSellOrder rfl rfl⟩

theorem charListLe_cons (a b : Char) (as bs : List Char) :
    charListLe (a :: as) (b :: bs) =
      if a < b then true else if b < a then false else charListLe as bs := rfl

theorem charListLe_cons_iff (a b : Char) (as bs : List Char) :
    charListLe (a :: as) (b :: bs) = true ↔
      (a < b ∨ (a = b ∧ charListLe as bs = true)) := by
  rw [charListLe_cons]
  rcases lt_trichotomy a b with h | h | h
  · simp [h]
  · subst h
    simp [lt_irrefl]
  · simp [h.asymm, h, h.ne.symm]

theorem charListLe_total : ∀ a b : List Char,
    charListLe a b = true ∨ charListLe b a = true
  | [], _ => Or.inl rfl
  | _ :: _, [] => Or.inr rfl
  | a :: as, b :: bs => by
    rw [charListLe_cons_iff, charListLe_cons_iff]
    rcases lt_trichotomy a b with h | h | h
    · exact Or.inl (Or.inl h)
    · subst h
      rcases charListLe_total as bs with h | h
      · exact Or.inl (Or.inr ⟨rfl, h⟩)
      · exact Or.inr (Or.inr ⟨rfl, h⟩)
    · exact Or.inr (Or.inl h)

theorem charListLe_trans : ∀ a b c : List Char,
    charListLe a b = true → charListLe b c = true → charListLe a c = true
  | [], _, _ => fun _ _ => rfl
  | _ :: _, [], _ => by
    intro h
    exact absurd h (by simp [charListLe])
  | _ :: _, _ :: _, [] => by
    intro _ h
    exact absurd h (by simp [charListLe])
  | a :: as, b :: bs, c :: cs => by
    rw [charListLe_cons_iff, charListLe_cons_iff, charListLe_cons_iff]
    rintro (hab | ⟨rfl, hab⟩) (hbc | ⟨rfl, hbc⟩)
    · exact Or.inl (hab.trans hbc)
    · exact Or.inl hab
    · exact Or.inl hbc
    · exact Or.inr ⟨rfl, charListLe_trans as bs cs hab hbc⟩

theorem boolImpLe_total : ∀ x y : Bool, (!x || y) = true ∨ (!y || x) = true := by
  decide

theorem boolImpLe_trans : ∀ x y z : Bool,
    (!x || y) = true → (!y || z) = true → (!x || z) = true := by
  decide

theorem jsKeyLe_total (a b : JSVal) : jsKeyLe a b = true ∨ jsKeyLe b a = true := by
  cases a <;> cases b <;>
    simp only [jsKeyLe, jsRank, decide_eq_true_eq] <;>
    first
      | exact Or.inl rfl
      | exact Or.inr rfl
      | exact le_total _ _
      | exact charListLe_total _ _
      | exact boolImpLe_total _ _

theorem jsKeyLe_trans (a b c : JSVal) (h1 : jsKeyLe a b = true)
    (h2 : jsKeyLe b c = true) : jsKeyLe a c = true := by
  cases a <;> cases b <;> cases c <;>
    simp only [jsKeyLe, jsRank, decide_eq_true_eq] at h1 h2 ⊢ <;>
    first
      | rfl
      | omega
      | exact le_trans h1 h2
      | exact charListLe_trans _ _ _ h1 h2
      | exact boolImpLe_trans _ _ _ h1 h2

instance : IsTotal Order createdAtLe :=
  ⟨fun a b => jsKeyLe_total a.created_at b.created_at⟩

instance : IsTrans Order createdAtLe :=
  ⟨fun _ _ _ h1 h2 => jsKeyLe_trans _ _ _ h1 h2⟩

/-- C8: on a successful listing fetch, `getOrders` returns a permutation of
exactly the response entries carrying a `state` field, each wrapped as an
Executed-state order, sorted ascending by the `created_at` key; hence for
every timestamp valuation `dateVal` of `getDateCreated()` that is monotone
in the code-unit order of the timestamp strings — as the provider's uniform
ISO-8601 timestamps are — the output is ascending in `getDateCreated()`. -/
theorem C8_getOrders_filter_wrap_sort (u : User) (res : List JSObject)
    (l : List Order) (h : getOrders u (.ok res) = .ok l)
    (dateVal : JSDate → Rat)
    (hmono : ∀ s t : String, charListLe s.data t.data = true →
      dateVal ⟨.str s⟩ ≤ dateVal ⟨.str t⟩)
    (hstrs : ∀ o ∈ res, ∃ s, o.created_at = .str s) :
    l.Perm ((res.filter (fun o => o.state ≠ .undef)).map (executedFrom u)) ∧
    (∀ o ∈ l, o.isExecuted = true) ∧
    l.Pairwise (fun a b => dateVal a.getDateCreated ≤ dateVal b.getDateCreated) := by
  unfold getOrders at h
  cases h
  set LL := (res.filter (fun o => o.state ≠ .undef)).map (executedFrom u) with hLL
  have hmemLL : ∀ o ∈ LL, ∃ x, x ∈ res ∧ o = executedFrom u x := by
    intro o ho
    rcases List.mem_map.mp ho with ⟨x, hx, rfl⟩
    exact ⟨x, (List.mem_filter.mp hx).1, rfl⟩
  have hperm := List.perm_insertionSort createdAtLe LL
  refine ⟨hperm, ?_, ?_⟩
  · intro o ho
    rcases hmemLL o (hperm.mem_iff.mp ho) with ⟨x, -, rfl⟩
    rfl
  · have hsorted := List.sorted_insertionSort createdAtLe LL
    refine List.Pairwise.imp_of_mem ?_ hsorted
    intro a b ha hb hr
    rcases hmemLL a (hperm.mem_iff.mp ha) with ⟨x, hx, rfl⟩
    rcases hmemLL b (hperm.mem_iff.mp hb) with ⟨y, hy, rfl⟩
    rcases hstrs x hx with ⟨sa, hsa⟩
    rcases hstrs y hy with ⟨sb, hsb⟩
    have hra : (executedFrom u x).created_at = .str sa := hsa
    have hrb : (executedFrom u y).created_at = .str sb := hsb
    have hkey : jsKeyLe (.str sa) (.str sb) = true := by
      rw [← hra, ← hrb]
      exact hr
    have hch : charListLe sa.data sb.data = true := hkey
    have := hmono sa sb hch
    simpa [Order.getDateCreated, hra, hrb] using this

/-- Listing fixture: a later-dated entry first, a malformed entry lacking
`state`, then an earlier-dated entry. -/
def listingEntryA : JSObject :=
  { sampleServerRecord with created_at := .str "2019-01-02T00:00:00Z", id := .str "a" }

def listingEntryB : JSObject :=
  { sampleServerRecord with created_at := .str "2019-01-01T00:00:00Z", id := .str "b" }

def malformedEntry : JSObject := { created_at := .str "2019-01-03T00:00:00Z" }

def listingFixture : List JSObject := [listingEntryA, malformedEntry, listingEntryB]

/-- C8 witness: the concrete listing with the constant timestamp
valuation. -/
theorem C8_witness :
    getOrders sampleUser (.ok listingFixture) =
      .ok [executedFrom sampleUser listingEntryB, executedFrom sampleUser listingEntryA] ∧
    (∀ o ∈ listingFixture, ∃ s, o.created_at = JSVal.str s) ∧
    ([executedFrom sampleUser listingEntryB, executedFrom sampleUser listingEntryA].Perm
       ((listingFixture.filter (fun o => o.state ≠ .undef)).map (executedFrom sampleUser)) ∧
     (∀ o ∈ [executedFrom sampleUser listingEntryB, executedFrom sampleUser listingEntryA],
        o.isExecuted = true) ∧
     [executedFrom sampleUser listingEntryB, executedFrom sampleUser listingEntryA].Pairwise
       (fun a b => (fun _ : JSDate => (0 : Rat)) a.getDateCreated ≤
                   (fun _ : JSDate => (0 : Rat)) b.getDateCreated)) := by
  have hstrs : ∀ o ∈ listingFixture, ∃ s, o.created_at = JSVal.str s := by
    intro o ho
    simp only [listingFixture, List.mem_cons, List.not_mem_nil, or_false] at ho
    rcases ho with rfl | rfl | rfl
    · exact ⟨"2019-01-02T00:00:00Z", rfl⟩
    · exact ⟨"2019-01-03T00:00:00Z", rfl⟩
    · exact ⟨"2019-01-01T00:00:00Z", rfl⟩
  exact ⟨rfl, hstrs,
    C8_getOrders_filter_wrap_sort sampleUser listingFixture
      [executedFrom sampleUser listingEntryB, executedFrom sampleUser listingEntryA]
      rfl (fun _ => (0 : Rat)) (fun _ _ _ => le_refl 0) hstrs⟩

end AlgoTrader
